import Mathlib

/-!
Shallow embedding of `backup_script.py`, a configuration-driven backup
orchestrator. Pure command construction (`queue_items`), the job runner
(`start`), the lock guard (`create_lock_file` / `release_lock_file`), and the
top-level `__main__` flow (`runMain`) are translated from the source.
External effects (filesystem, subprocess dispatch, log output) are made
explicit: the filesystem is a pair of oracles (`dirExists`, `findOut`),
subprocess dispatch is an oracle `String -> ExecOutcome`, and all observable
actions are recorded as a list of `Event`s in program order. Wall-clock time
is abstracted: a timing log line is recorded as the `Event.timingReport`
constructor since its text depends on elapsed real time.
-/

namespace BackupScript

/-- `LOCK_FILE_NAME` constant from line 32 of the source. -/
def LOCK_FILE_NAME : String := "backup.lock"

/-- Outcome of trying to dispatch one shell command: either the executable
could not be located (Python raises `FileNotFoundError` before the process
starts) or the command ran and exited with some code. -/
inductive ExecOutcome
  | notFound
  | exited (code : Int)
deriving DecidableEq, Repr

/-- Observable actions of the script, in program order. Log calls keep the
exact message text built by the source; `timingReport` abstracts the two
wall-clock-dependent info lines (per-step and whole-script timing). -/
inductive Event
  | logDebug (msg : String)
  | logInfo (msg : String)
  | logWarning (msg : String)
  | logError (msg : String)
  | printOut (msg : String)
  | makeDirs (path : String)
  | runFind (dir : String)
  | execCmd (cmd : String)
  | timingReport
  | createLockMarker
  | removeLockMarker
deriving DecidableEq, Repr

/-- The `BackupItem` fields set in `__init__` (lines 70-81). `name` and
`enabled` are mandatory; the rest default to `None` via `getattr`, modelled
as `Option`. -/
structure BackupItem where
  name : String
  enabled : Bool
  src_path : Option String
  dest_path : Option String
  pre_action : Option String
  post_action : Option String
  tar_opts : Option String
  show_time : Option Bool
deriving DecidableEq, Repr

/-- The `ScriptAction` named tuple (lines 36-44). -/
structure ScriptAction where
  preaction : Option String
  postaction : Option String
  showtime : Option Bool
  log_file : String
deriving DecidableEq, Repr

/-- Parsed command-line arguments (lines 214-218). -/
structure Args where
  full : Bool
  verbose : Bool
  console_log : Bool
deriving DecidableEq, Repr

/-- Python truthiness of an optional string: `None` and the empty string are
falsy (`if self.pre_action:`, `if self.src_path and self.dest_path:`). -/
def truthyStr : Option String → Bool
  | none => false
  | some s => !s.isEmpty

/-- Python truthiness of an optional boolean (`if self.show_time:`). -/
def truthyBool : Option Bool → Bool
  | none => false
  | some b => b

/-- Lines 104-106: take the raw stdout of
`find full_destination_path -name *snar` and keep element `[0]` of its
split on newline, i.e. everything before the first newline (the whole
output when it has no newline); with no match the output is empty and this
is the empty string. -/
def discoveredSnar (findOutput : String) : String :=
  ⟨findOutput.data.takeWhile (fun c => c != '\n')⟩

/-- `BackupItem.queue_items` (lines 87-133), as a pure function of the item,
the run-wide `full_backup` flag, the global `date` string, and the
filesystem oracles. Returns the job queue built (pre-action, tar command
when both paths are truthy, post-action) together with the side effects in
source order (mkdir, the find subprocess, the debug log lines). -/
def queue_items (it : BackupItem) (full_backup : Bool) (date : String)
    (dirExists : String → Bool) (findOut : String → String) :
    List String × List Event :=
  let q0 : List String :=
    if truthyStr it.pre_action then [it.pre_action.getD ""] else []
  if truthyStr it.src_path && truthyStr it.dest_path then
    let full_destination_path := it.dest_path.getD "" ++ "/" ++ it.name
    let ev1 : List Event :=
      if dirExists full_destination_path then []
      else [Event.makeDirs full_destination_path]
    let file_name :=
      if full_backup then "full-" ++ it.name ++ "-" ++ date ++ ".tar.gz"
      else "i." ++ it.name ++ "-" ++ date ++ ".tar.gz"
    let snar_file :=
      if full_backup then
        full_destination_path ++ "/" ++ it.name ++ "-" ++ date ++ ".snar"
      else discoveredSnar (findOut full_destination_path)
    let ev2 : List Event :=
      if full_backup then [] else [Event.runFind full_destination_path]
    let dest_path_and_file := full_destination_path ++ "/" ++ file_name
    let tar_opts :=
      "zcPf" ++ (if truthyStr it.tar_opts then it.tar_opts.getD "" else "")
    let tar_opts := if full_backup then tar_opts else tar_opts ++ "g"
    let built_cmd :=
      if full_backup then
        dest_path_and_file ++ " " ++ "--listed-incremental=" ++ snar_file ++
          " " ++ it.src_path.getD ""
      else
        snar_file ++ " " ++ dest_path_and_file ++ " " ++ it.src_path.getD ""
    let ev3 : List Event :=
      if full_backup then
        [Event.logDebug ("Creating full backup file " ++ dest_path_and_file ++
          " from " ++ it.src_path.getD "")]
      else
        [Event.logDebug ("Creating incremental backup file " ++
          dest_path_and_file ++ " from " ++ it.src_path.getD "")]
    let cmd := "tar " ++ tar_opts ++ " " ++ built_cmd
    let q2 := (q0 ++ [cmd]) ++
      (if truthyStr it.post_action then [it.post_action.getD ""] else [])
    (q2, ev1 ++ ev2 ++ ev3)
  else
    let q2 := q0 ++
      (if truthyStr it.post_action then [it.post_action.getD ""] else [])
    (q2, [Event.logDebug "No src or dest specified, only executing pre and post actions"])

/-- `BackupItem.start` (lines 135-155): run the queued jobs in order. A
`FileNotFoundError` raised by `Popen` (dispatch failure) escapes the loop
and is caught by the surrounding try, which logs the failing job; a command
that ran and exited (with any code, `proc.wait()` is ignored) continues to
the next job. The per-step timing info line (shown when `show_time` is
truthy) is recorded as `timingReport`. -/
def start (show_time : Bool) (dispatch : String → ExecOutcome) :
    List String → List Event
  | [] => []
  | j :: rest =>
    match dispatch j with
    | ExecOutcome.notFound =>
        [Event.logDebug ("Executing cmd:: " ++ j),
         Event.logError ("Could not execute: " ++ j)]
    | ExecOutcome.exited _ =>
        Event.logDebug ("Executing cmd:: " ++ j) :: Event.execCmd j ::
        Event.logDebug ("job " ++ j ++ " finished") ::
        ((if show_time then [Event.timingReport] else []) ++
          start show_time dispatch rest)

/-- Lines 144-150 (and identically 291-295): pick the strftime format for an
elapsed duration in seconds; the hours component is added exactly when
`time_taken > 3599`. -/
def durationFormat (time_taken : ℚ) : String :=
  if time_taken > 3599 then "%H hrs %M mins %S seconds"
  else "%M mins %S seconds"

/-- Result of `create_lock_file` (lines 183-192): the returned value (the
`FileExistsError` class, or `None` on success), the lock-marker state after
the call, and the events performed. -/
inductive LockResult
  | fileExistsError
  | ok
deriving DecidableEq, Repr

structure LockStep where
  result : LockResult
  lockExists : Bool
  events : List Event
deriving DecidableEq, Repr

/-- `create_lock_file` (lines 183-192): if the marker exists, return the
`FileExistsError` class without touching the file; otherwise create it. -/
def create_lock_file (lockExists : Bool) : LockStep :=
  if lockExists then ⟨LockResult.fileExistsError, lockExists, []⟩
  else ⟨LockResult.ok, true, [Event.createLockMarker]⟩

structure ReleaseStep where
  lockExists : Bool
  events : List Event
deriving DecidableEq, Repr

/-- `release_lock_file` (lines 195-201): remove the marker; a missing marker
is caught and logged at debug level, not an error. -/
def release_lock_file (lockExists : Bool) : ReleaseStep :=
  if lockExists then ⟨false, [Event.removeLockMarker, Event.logDebug "Lock file removed"]⟩
  else ⟨false, [Event.logDebug "Could not find lock file to release"]⟩

/-- `create_backup_items` (lines 158-180) with the file/JSON layer
abstracted to an `Option` input: when the config file is missing the
function logs the error and returns `None` (Python returns the single value
`None`, not a pair); otherwise it returns the item list and the
`ScriptAction` tuple. -/
def create_backup_items (conf : Option (List BackupItem × ScriptAction)) :
    Option (List BackupItem × ScriptAction) × List Event :=
  match conf with
  | none => (none, [Event.logError "Err! could not load the config.json file, does it exist?"])
  | some c => (some c, [])

/-- Ambient state the script reads: the lock marker, writability of the log
destination, and the filesystem oracles used by `queue_items`. -/
structure World where
  lockExists : Bool
  logWritable : Bool
  dirExists : String → Bool
  findOut : String → String

/-- How a run of `__main__` ends: an uncaught Python exception (process
crash), an explicit `sys.exit()` / `quit(0)` (both exit status 0), or
falling off the end of the script. -/
inductive Outcome
  | crashed (exc : String)
  | exitedWith (code : Nat)
  | finished
deriving DecidableEq, Repr

structure RunResult where
  outcome : Outcome
  events : List Event
  lockAtEnd : Bool
deriving Repr

/-- Lines 269-274 and 284-289: run a script-wide pre/post action with
`Popen(..., shell=True)`; a dispatch failure is caught and logged (the
post-action handler reuses the pre-action message verbatim in the source). -/
def scriptHook (dispatch : String → ExecOutcome) (action : String) : List Event :=
  match dispatch action with
  | ExecOutcome.notFound => [Event.logError "Failed to run the pre_action_script command"]
  | ExecOutcome.exited _ => [Event.execCmd action]

/-- The `__main__` block (lines 204-306) as a function of the parsed config
(`none` when `config.json` is missing), the CLI arguments, the ambient
`World`, the dispatch oracle and the global `date` string. Mirrors source
order: unpack `create_backup_items()` (a `TypeError` crash when it returned
`None`), logging setup (`quit(0)` on an unwritable log file; note the dead
`backup_items is None` check at lines 240-242 is unreachable because the
unpack has already crashed), lock acquisition (`sys.exit()` when held),
per-item queueing with a warning for disabled items, the script pre-action,
the item runners (join-all; modelled sequentially since each runner's event
list is independent), the script post-action, optional timing report, the
final info line, and the unconditional lock release. -/
def runMain (conf : Option (List BackupItem × ScriptAction)) (args : Args)
    (w : World) (dispatch : String → ExecOutcome) (date : String) : RunResult :=
  let step1 := create_backup_items conf
  match step1.1 with
  | none => ⟨Outcome.crashed "TypeError", step1.2, w.lockExists⟩
  | some cfg =>
    let backup_items := cfg.1
    let script_actions := cfg.2
    let logStep : List Event × Bool :=
      if args.console_log then
        ([Event.logInfo "Script logging to console only"], true)
      else if w.logWritable then ([], true)
      else
        ([Event.printOut ("ERROR: Cannot write to supplied log location: " ++
            script_actions.log_file)], false)
    if logStep.2 then
      let lockStep := create_lock_file w.lockExists
      if lockStep.result = LockResult.fileExistsError then
        ⟨Outcome.exitedWith 0,
         step1.2 ++ logStep.1 ++ lockStep.events ++
           [Event.logError ("Backup is still running (delete " ++
             LOCK_FILE_NAME ++ " if this isn\x27t correct)")],
         w.lockExists⟩
      else
        let looped := backup_items.foldl
          (fun (acc : List (BackupItem × List String) × List Event) item =>
            if item.enabled then
              let built := queue_items item args.full date w.dirExists w.findOut
              (acc.1 ++ [(item, built.1)], acc.2 ++ built.2)
            else
              (acc.1, acc.2 ++ [Event.logWarning (item.name ++ " is not enabled, skipping ")]))
          ([], [])
        let evPre :=
          if truthyStr script_actions.preaction then
            scriptHook dispatch (script_actions.preaction.getD "")
          else []
        let evJobs := looped.1.foldl
          (fun acc jb => acc ++ start (truthyBool jb.1.show_time) dispatch jb.2) []
        let evPost :=
          if truthyStr script_actions.postaction then
            scriptHook dispatch (script_actions.postaction.getD "")
          else []
        let evTime :=
          if truthyBool script_actions.showtime then [Event.timingReport] else []
        let rel := release_lock_file lockStep.lockExists
        ⟨Outcome.finished,
         step1.2 ++ logStep.1 ++ lockStep.events ++ looped.2 ++ evPre ++
           evJobs ++ evPost ++ evTime ++ [Event.logInfo "Script finished"] ++ rel.events,
         rel.lockExists⟩
    else
      ⟨Outcome.exitedWith 0, step1.2 ++ logStep.1, w.lockExists⟩

/-- The commands a runner actually spawned, extracted from its event list. -/
def executedCmds (evs : List Event) : List String :=
  evs.filterMap fun e =>
    match e with
    | Event.execCmd c => some c
    | _ => none

/-- Whether dispatching a command succeeds (the executable is located). -/
def dispatchOk (dispatch : String → ExecOutcome) (j : String) : Bool :=
  match dispatch j with
  | ExecOutcome.notFound => false
  | ExecOutcome.exited _ => true

/-- A dispatch oracle where every command is found and exits 0. -/
def dispatchAllOk : String → ExecOutcome := fun _ => ExecOutcome.exited 0

/-- A script-action record with no hooks and the default log file. -/
def saPlain : ScriptAction := ⟨none, none, none, "/var/log/backup_script"⟩

/-- A world with no lock held, writable log, all directories present, and
empty find output. -/
def wPlain : World := ⟨false, false, fun _ => true, fun _ => ""⟩

/-- CLI arguments with all flags off (incremental mode, file logging). -/
def argsPlain : Args := ⟨false, false, false⟩

/-- C1: the spec claims a missing config file is logged and the program
exits cleanly without crashing and with no side effects beyond logging.
The code does log inside `create_backup_items` and return `None`, but
`__main__` immediately tuple-unpacks that `None`
(`backup_items, script_actions = create_backup_items()`), which raises
`TypeError` and crashes the process; the clean-exit check
`if backup_items is None` at lines 240-242 is unreachable. This theorem
evaluates the modelled main flow at the failing input: the run ends in a
crash, having emitted only the error log, with the lock state untouched. -/
theorem C1_missing_config_crashes (args : Args) (w : World)
    (dispatch : String → ExecOutcome) (date : String) :
    runMain none args w dispatch date =
      ⟨Outcome.crashed "TypeError",
       [Event.logError "Err! could not load the config.json file, does it exist?"],
       w.lockExists⟩ := rfl

/-- C3 counterexample: with a default config, no console logging, and an
unwritable log destination, the program exits with status 0 (via
`quit(0)` at line 238), refuting the claimed non-zero exit condition. -/
theorem C3_unwritable_log_counterexample :
    (runMain (some ([], saPlain)) argsPlain wPlain dispatchAllOk "2026-10-12").outcome =
      Outcome.exitedWith 0 := rfl

/-- C3 (amended): if the configured log destination is unwritable and
console logging is not selected, the program prints an error naming the log
location and aborts startup before any backup work — but it exits with
status 0 (Python `quit(0)`), not a non-zero code, and the message is
printed rather than logged. The events list is exactly the printed error,
and the lock state is untouched. -/
theorem C3_unwritable_log_aborts (items : List BackupItem) (sa : ScriptAction)
    (args : Args) (w : World) (dispatch : String → ExecOutcome) (date : String)
    (hc : args.console_log = false) (hw : w.logWritable = false) :
    (runMain (some (items, sa)) args w dispatch date).outcome = Outcome.exitedWith 0 ∧
    (runMain (some (items, sa)) args w dispatch date).events =
      [Event.printOut ("ERROR: Cannot write to supplied log location: " ++ sa.log_file)] ∧
    (runMain (some (items, sa)) args w dispatch date).lockAtEnd = w.lockExists := by
  simp [runMain, create_backup_items, hc, hw]

/-- C3 witness: the amended behavior at a concrete input. -/
theorem C3_unwritable_log_aborts_witness :
    (runMain (some ([], saPlain)) argsPlain wPlain dispatchAllOk "2026-10-12").outcome =
      Outcome.exitedWith 0 ∧
    (runMain (some ([], saPlain)) argsPlain wPlain dispatchAllOk "2026-10-12").events =
      [Event.printOut ("ERROR: Cannot write to supplied log location: " ++ saPlain.log_file)] ∧
    (runMain (some ([], saPlain)) argsPlain wPlain dispatchAllOk "2026-10-12").lockAtEnd =
      wPlain.lockExists :=
  C3_unwritable_log_aborts [] saPlain argsPlain wPlain dispatchAllOk "2026-10-12" rfl rfl

/-- C4: the lock guard. Acquiring while the marker exists returns the
already-locked result without creating or modifying the marker (state
unchanged, no events); acquiring twice without an intervening release
yields already-locked on the second attempt; releasing with no marker
present performs only a debug log (a no-op, not an error). -/
theorem C4_lock_guard :
    (create_lock_file true).result = LockResult.fileExistsError ∧
    (create_lock_file true).lockExists = true ∧
    (create_lock_file true).events = [] ∧
    (create_lock_file false).result = LockResult.ok ∧
    (create_lock_file (create_lock_file false).lockExists).result =
      LockResult.fileExistsError ∧
    (release_lock_file false).events =
      [Event.logDebug "Could not find lock file to release"] ∧
    (release_lock_file false).lockExists = false :=
  ⟨rfl, rfl, rfl, rfl, rfl, rfl, rfl⟩

/-- C9: the step-duration format has an hours component exactly when the
elapsed time exceeds 3599 seconds; 3599 seconds formats as
minutes+seconds, 3600 seconds with hours. -/
theorem C9_duration_format (t : ℚ) :
    (durationFormat t = "%H hrs %M mins %S seconds" ↔ 3599 < t) ∧
    durationFormat 3599 = "%M mins %S seconds" ∧
    durationFormat 3600 = "%H hrs %M mins %S seconds" := by
  refine ⟨?_, by norm_num [durationFormat], by norm_num [durationFormat]⟩
  unfold durationFormat
  split
  · next h => exact iff_of_true rfl h
  · next h => exact iff_of_false (by decide) h

/-- C9 witness: the format for a concrete elapsed time over the threshold. -/
theorem C9_duration_format_witness :
    durationFormat 3600 = "%H hrs %M mins %S seconds" :=
  (C9_duration_format 3600).2.2

/-- A world whose lock marker already exists at run start. -/
def wLocked : World := ⟨true, true, fun _ => true, fun _ => ""⟩

/-- CLI arguments selecting console logging (incremental mode). -/
def argsConsole : Args := ⟨false, false, true⟩

/-- C5: when the lock file is already present at run start (and logging
setup succeeds), the orchestrator runs zero archive commands (no command is
spawned, no find subprocess, no directory creation), logs an error naming
the lock file `backup.lock`, exits (status 0 via `sys.exit()`), and leaves
the pre-existing lock marker untouched — it is neither created nor
removed, and the lock still exists at the end. -/
theorem C5_lock_held_no_archiving (items : List BackupItem) (sa : ScriptAction)
    (args : Args) (w : World) (dispatch : String → ExecOutcome) (date : String)
    (hlock : w.lockExists = true)
    (hlog : args.console_log = true ∨ w.logWritable = true) :
    (runMain (some (items, sa)) args w dispatch date).outcome = Outcome.exitedWith 0 ∧
    (runMain (some (items, sa)) args w dispatch date).lockAtEnd = true ∧
    Event.logError ("Backup is still running (delete backup.lock if this isn\x27t correct)")
      ∈ (runMain (some (items, sa)) args w dispatch date).events ∧
    (∀ c, Event.execCmd c ∉ (runMain (some (items, sa)) args w dispatch date).events) ∧
    (∀ d, Event.runFind d ∉ (runMain (some (items, sa)) args w dispatch date).events) ∧
    Event.createLockMarker ∉ (runMain (some (items, sa)) args w dispatch date).events ∧
    Event.removeLockMarker ∉ (runMain (some (items, sa)) args w dispatch date).events ∧
    (∀ pth, Event.makeDirs pth ∉ (runMain (some (items, sa)) args w dispatch date).events) := by
  have hmain : runMain (some (items, sa)) args w dispatch date =
      ⟨Outcome.exitedWith 0,
       (if args.console_log then [Event.logInfo "Script logging to console only"] else []) ++
         [Event.logError ("Backup is still running (delete backup.lock if this isn\x27t correct)")],
       true⟩ := by
    by_cases hc : args.console_log
    · simp [runMain, create_backup_items, hc, hlock, create_lock_file, LOCK_FILE_NAME]
    · rcases hlog with h | h
      · exact absurd h hc
      · simp [runMain, create_backup_items, hc, h, hlock, create_lock_file, LOCK_FILE_NAME]
  rw [hmain]
  by_cases hc : args.console_log <;> simp [hc]

/-- C5 witness: a concrete run (console logging, lock already held). -/
theorem C5_lock_held_no_archiving_witness :
    (runMain (some ([], saPlain)) argsConsole wLocked dispatchAllOk "2026-10-12").outcome =
      Outcome.exitedWith 0 ∧
    (runMain (some ([], saPlain)) argsConsole wLocked dispatchAllOk "2026-10-12").lockAtEnd = true ∧
    Event.logError ("Backup is still running (delete backup.lock if this isn\x27t correct)")
      ∈ (runMain (some ([], saPlain)) argsConsole wLocked dispatchAllOk "2026-10-12").events ∧
    (∀ c, Event.execCmd c ∉
      (runMain (some ([], saPlain)) argsConsole wLocked dispatchAllOk "2026-10-12").events) ∧
    (∀ d, Event.runFind d ∉
      (runMain (some ([], saPlain)) argsConsole wLocked dispatchAllOk "2026-10-12").events) ∧
    Event.createLockMarker ∉
      (runMain (some ([], saPlain)) argsConsole wLocked dispatchAllOk "2026-10-12").events ∧
    Event.removeLockMarker ∉
      (runMain (some ([], saPlain)) argsConsole wLocked dispatchAllOk "2026-10-12").events ∧
    (∀ pth, Event.makeDirs pth ∉
      (runMain (some ([], saPlain)) argsConsole wLocked dispatchAllOk "2026-10-12").events) :=
  C5_lock_held_no_archiving [] saPlain argsConsole wLocked dispatchAllOk "2026-10-12"
    rfl (Or.inl rfl)

/-- C7: in full mode, for an item with both paths set, the built archive
command is `tar zcPf{extra}` (gzip compression `z`, creation `c`,
absolute-path preservation `P`, plus any extra options appended verbatim),
the archive is `{dest}/{name}/full-{name}-{date}.tar.gz`, and the state
file `{dest}/{name}/{name}-{date}.snar` is passed via
`--listed-incremental=`; it sits between the optional pre- and
post-actions in the queue. -/
theorem C7_full_mode_command (it : BackupItem) (date : String)
    (dirExists : String → Bool) (findOut : String → String)
    (hs : truthyStr it.src_path = true) (hd : truthyStr it.dest_path = true) :
    (queue_items it true date dirExists findOut).1 =
      (if truthyStr it.pre_action then [it.pre_action.getD ""] else []) ++
      ["tar " ++ ("zcPf" ++ (if truthyStr it.tar_opts then it.tar_opts.getD "" else "")) ++
        " " ++ (it.dest_path.getD "" ++ "/" ++ it.name ++ "/" ++
          ("full-" ++ it.name ++ "-" ++ date ++ ".tar.gz") ++ " " ++
          "--listed-incremental=" ++
          (it.dest_path.getD "" ++ "/" ++ it.name ++ "/" ++ it.name ++ "-" ++ date ++ ".snar") ++
          " " ++ it.src_path.getD "")] ++
      (if truthyStr it.post_action then [it.post_action.getD ""] else []) := by
  simp [queue_items, hs, hd, String.append_assoc]

/-- An item with both paths and both hooks set, no extra tar options. -/
def itemData : BackupItem :=
  ⟨"data", true, some "/home/data", some "/mnt/backup",
   some "echo pre", some "echo post", none, none⟩

/-- C7 witness: the full-mode command for a concrete item. -/
theorem C7_full_mode_command_witness :
    (queue_items itemData true "2026-10-12" (fun _ => true) (fun _ => "")).1 =
      (if truthyStr itemData.pre_action then [itemData.pre_action.getD ""] else []) ++
      ["tar " ++ ("zcPf" ++ (if truthyStr itemData.tar_opts then itemData.tar_opts.getD "" else "")) ++
        " " ++ (itemData.dest_path.getD "" ++ "/" ++ itemData.name ++ "/" ++
          ("full-" ++ itemData.name ++ "-" ++ "2026-10-12" ++ ".tar.gz") ++ " " ++
          "--listed-incremental=" ++
          (itemData.dest_path.getD "" ++ "/" ++ itemData.name ++ "/" ++ itemData.name ++
            "-" ++ "2026-10-12" ++ ".snar") ++
          " " ++ itemData.src_path.getD "")] ++
      (if truthyStr itemData.post_action then [itemData.post_action.getD ""] else []) :=
  C7_full_mode_command itemData "2026-10-12" (fun _ => true) (fun _ => "")
    (by decide) (by decide)

/-- C2: in incremental mode with an existing `.snar` file in the
destination directory (nonempty first match of the `*snar` find), the
built command passes the discovered state file — the first line of the
find output — in the state-file position, appends `g` to the option
cluster, and names the archive `{dest}/{name}/i.{name}-{date}.tar.gz`; no
new state-file name is constructed. -/
theorem C2_incremental_uses_discovered_snar (it : BackupItem) (date : String)
    (dirExists : String → Bool) (findOut : String → String)
    (hs : truthyStr it.src_path = true) (hd : truthyStr it.dest_path = true)
    (_hsnar : discoveredSnar (findOut (it.dest_path.getD "" ++ "/" ++ it.name)) ≠ "") :
    (queue_items it false date dirExists findOut).1 =
      (if truthyStr it.pre_action then [it.pre_action.getD ""] else []) ++
      ["tar " ++ ("zcPf" ++ (if truthyStr it.tar_opts then it.tar_opts.getD "" else "") ++ "g") ++
        " " ++ (discoveredSnar (findOut (it.dest_path.getD "" ++ "/" ++ it.name)) ++ " " ++
          (it.dest_path.getD "" ++ "/" ++ it.name ++ "/" ++
            ("i." ++ it.name ++ "-" ++ date ++ ".tar.gz")) ++ " " ++ it.src_path.getD "")] ++
      (if truthyStr it.post_action then [it.post_action.getD ""] else []) := by
  simp [queue_items, hs, hd, String.append_assoc]

/-- A filesystem where the destination holds one prior state file. -/
def findOneSnar : String → String :=
  fun _ => "/mnt/backup/data/data-2026-10-01.snar\n"

/-- C2 witness: a concrete incremental run with one existing state file. -/
theorem C2_incremental_uses_discovered_snar_witness :
    (queue_items itemData false "2026-10-12" (fun _ => true) findOneSnar).1 =
      (if truthyStr itemData.pre_action then [itemData.pre_action.getD ""] else []) ++
      ["tar " ++ ("zcPf" ++ (if truthyStr itemData.tar_opts then itemData.tar_opts.getD "" else "") ++ "g") ++
        " " ++ (discoveredSnar (findOneSnar (itemData.dest_path.getD "" ++ "/" ++ itemData.name)) ++ " " ++
          (itemData.dest_path.getD "" ++ "/" ++ itemData.name ++ "/" ++
            ("i." ++ itemData.name ++ "-" ++ "2026-10-12" ++ ".tar.gz")) ++ " " ++
          itemData.src_path.getD "")] ++
      (if truthyStr itemData.post_action then [itemData.post_action.getD ""] else []) :=
  C2_incremental_uses_discovered_snar itemData "2026-10-12" (fun _ => true) findOneSnar
    (by decide) (by decide) (by decide)

/-- C10: in incremental mode with no file matching `*snar` in the
destination directory (empty find output), the discovered state file is
the empty string, and the state-file position of the built command is
empty — the command degenerates to
`tar zcPf{extra}g  {dest}/{name}/i.{name}-{date}.tar.gz {src}` with an
empty slot where the state file would be. -/
theorem C10_incremental_empty_snar (it : BackupItem) (date : String)
    (dirExists : String → Bool) (findOut : String → String)
    (hs : truthyStr it.src_path = true) (hd : truthyStr it.dest_path = true)
    (hfind : findOut (it.dest_path.getD "" ++ "/" ++ it.name) = "") :
    discoveredSnar (findOut (it.dest_path.getD "" ++ "/" ++ it.name)) = "" ∧
    (queue_items it false date dirExists findOut).1 =
      (if truthyStr it.pre_action then [it.pre_action.getD ""] else []) ++
      ["tar " ++ ("zcPf" ++ (if truthyStr it.tar_opts then it.tar_opts.getD "" else "") ++ "g") ++
        " " ++ ("" ++ " " ++
          (it.dest_path.getD "" ++ "/" ++ it.name ++ "/" ++
            ("i." ++ it.name ++ "-" ++ date ++ ".tar.gz")) ++ " " ++ it.src_path.getD "")] ++
      (if truthyStr it.post_action then [it.post_action.getD ""] else []) := by
  have h0 : discoveredSnar "" = "" := rfl
  have hfind2 : findOut (it.dest_path.getD "" ++ ("/" ++ it.name)) = "" := by
    rw [← String.append_assoc]; exact hfind
  constructor
  · rw [hfind, h0]
  · simp [queue_items, hs, hd, hfind, hfind2, h0, String.append_assoc]

/-- C10 witness: a concrete incremental run with empty find output. -/
theorem C10_incremental_empty_snar_witness :
    discoveredSnar ((fun _ => "") (itemData.dest_path.getD "" ++ "/" ++ itemData.name)) = "" ∧
    (queue_items itemData false "2026-10-12" (fun _ => true) (fun _ => "")).1 =
      (if truthyStr itemData.pre_action then [itemData.pre_action.getD ""] else []) ++
      ["tar " ++ ("zcPf" ++ (if truthyStr itemData.tar_opts then itemData.tar_opts.getD "" else "") ++ "g") ++
        " " ++ ("" ++ " " ++
          (itemData.dest_path.getD "" ++ "/" ++ itemData.name ++ "/" ++
            ("i." ++ itemData.name ++ "-" ++ "2026-10-12" ++ ".tar.gz")) ++ " " ++
          itemData.src_path.getD "")] ++
      (if truthyStr itemData.post_action then [itemData.post_action.getD ""] else []) :=
  C10_incremental_empty_snar itemData "2026-10-12" (fun _ => true) (fun _ => "")
    (by decide) (by decide) rfl

/-- C8: the job queue is built in the fixed order
[pre-action?, archive command?, post-action?]: when both paths are truthy
there is exactly one archive step between the optional hooks, and when the
source or destination path is missing (or empty) the queue is exactly the
configured hooks with no archive step. -/
theorem C8_queue_shape (it : BackupItem) (full : Bool) (date : String)
    (dirExists : String → Bool) (findOut : String → String) :
    ((truthyStr it.src_path && truthyStr it.dest_path) = true →
      ∃ archive, (queue_items it full date dirExists findOut).1 =
        (if truthyStr it.pre_action then [it.pre_action.getD ""] else []) ++
        [archive] ++
        (if truthyStr it.post_action then [it.post_action.getD ""] else [])) ∧
    ((truthyStr it.src_path && truthyStr it.dest_path) = false →
      (queue_items it full date dirExists findOut).1 =
        (if truthyStr it.pre_action then [it.pre_action.getD ""] else []) ++
        (if truthyStr it.post_action then [it.post_action.getD ""] else [])) := by
  constructor
  · intro h
    simp only [queue_items, h]
    exact ⟨_, rfl⟩
  · intro h
    simp [queue_items, h]

/-- A hook-only item: no source or destination path, both hooks set. -/
def itemHooks : BackupItem :=
  ⟨"dbdump", true, none, none, some "pg_dump db", some "echo done", none, none⟩

/-- C8 witness: a hook-only item builds exactly [pre, post], no archive. -/
theorem C8_queue_shape_witness :
    (queue_items itemHooks false "2026-10-12" (fun _ => true) (fun _ => "")).1 =
      (if truthyStr itemHooks.pre_action then [itemHooks.pre_action.getD ""] else []) ++
      (if truthyStr itemHooks.post_action then [itemHooks.post_action.getD ""] else []) :=
  (C8_queue_shape itemHooks false "2026-10-12" (fun _ => true) (fun _ => "")).2 (by decide)

/-- `executedCmds` ignores a debug log entry. -/
theorem executedCmds_logDebug (m : String) (evs : List Event) :
    executedCmds (Event.logDebug m :: evs) = executedCmds evs := rfl

/-- `executedCmds` ignores an error log entry. -/
theorem executedCmds_logError (m : String) (evs : List Event) :
    executedCmds (Event.logError m :: evs) = executedCmds evs := rfl

/-- `executedCmds` ignores a timing report entry. -/
theorem executedCmds_timingReport (evs : List Event) :
    executedCmds (Event.timingReport :: evs) = executedCmds evs := rfl

/-- `executedCmds` collects a spawned command. -/
theorem executedCmds_execCmd (c : String) (evs : List Event) :
    executedCmds (Event.execCmd c :: evs) = c :: executedCmds evs := rfl

/-- `executedCmds` distributes over append. -/
theorem executedCmds_append (a b : List Event) :
    executedCmds (a ++ b) = executedCmds a ++ executedCmds b :=
  List.filterMap_append a b _

/-- The runner spawns exactly the longest initial segment of the queue on
which dispatch succeeds: a command that ran (with any exit code) continues
the queue, and the first dispatch failure stops it. -/
theorem executed_eq_takeWhile (st : Bool) (dispatch : String → ExecOutcome)
    (q : List String) :
    executedCmds (start st dispatch q) = q.takeWhile (dispatchOk dispatch) := by
  induction q with
  | nil => rfl
  | cons j rest ih =>
    cases hdj : dispatch j with
    | notFound =>
      simp [start, hdj, dispatchOk, executedCmds_logDebug, executedCmds_logError,
        List.takeWhile_cons]
      rfl
    | exited c =>
      cases st <;>
        simp [start, hdj, dispatchOk, executedCmds_logDebug, executedCmds_execCmd,
          executedCmds_timingReport, executedCmds_append, List.takeWhile_cons, ih]

/-- `takeWhile` returns exactly the leading segment when everything in it
satisfies the predicate and the next element does not. -/
theorem takeWhile_stops_at_failure {α : Type} (p : α → Bool) (pre : List α)
    (j : α) (post : List α)
    (hpre : ∀ a ∈ pre, p a = true) (hj : p j = false) :
    (pre ++ j :: post).takeWhile p = pre := by
  induction pre with
  | nil => simp [List.takeWhile_cons, hj]
  | cons a tl ih =>
    have ha := hpre a (by simp)
    simp [List.takeWhile_cons, ha]
    exact ih fun b hb => hpre b (by simp [hb])

/-- A dispatch failure is reported by logging the failing step. -/
theorem start_reports_failure (st : Bool) (dispatch : String → ExecOutcome)
    (pre : List String) (j : String) (post : List String)
    (hpre : ∀ a ∈ pre, dispatchOk dispatch a = true)
    (hj : dispatch j = ExecOutcome.notFound) :
    Event.logError ("Could not execute: " ++ j) ∈ start st dispatch (pre ++ j :: post) := by
  induction pre with
  | nil => simp [start, hj]
  | cons a tl ih =>
    have ha := hpre a (by simp)
    cases hda : dispatch a with
    | notFound => rw [dispatchOk, hda] at ha; cases ha
    | exited c =>
      have ih2 := ih fun b hb => hpre b (by simp [hb])
      simp only [List.cons_append, start, hda]
      exact List.mem_cons_of_mem _ (List.mem_cons_of_mem _ (List.mem_cons_of_mem _
        (List.mem_append_right _ ih2)))

/-- C6: the runner processes the queue strictly in order; the commands it
spawns are exactly the queue elements up to the first dispatch failure (so
a command that ran and exited non-zero does not stop the queue), and when a
dispatch failure occurs after a cleanly-dispatching initial segment, the
runner logs the failing step and spawns nothing past that segment. -/
theorem C6_runner_policy (st : Bool) (dispatch : String → ExecOutcome)
    (queue : List String) :
    executedCmds (start st dispatch queue) = queue.takeWhile (dispatchOk dispatch) ∧
    ∀ pre j post, queue = pre ++ j :: post →
      (∀ a ∈ pre, dispatchOk dispatch a = true) →
      dispatch j = ExecOutcome.notFound →
      Event.logError ("Could not execute: " ++ j) ∈ start st dispatch queue ∧
      executedCmds (start st dispatch queue) = pre := by
  constructor
  · exact executed_eq_takeWhile st dispatch queue
  · intro pre j post hq hpre hj
    subst hq
    refine ⟨start_reports_failure st dispatch pre j post hpre hj, ?_⟩
    rw [executed_eq_takeWhile st dispatch]
    exact takeWhile_stops_at_failure _ pre j post hpre (by rw [dispatchOk, hj])

/-- A dispatch oracle: `a` runs and exits 1 (non-zero), `b` cannot be
located, everything else exits 0. -/
def dispatchMixed : String → ExecOutcome := fun s =>
  if s = "a" then ExecOutcome.exited 1
  else if s = "b" then ExecOutcome.notFound
  else ExecOutcome.exited 0

/-- C6 witness: on queue [a, b, c], `a` exits non-zero yet runs, `b` fails
dispatch and is reported, `c` is never spawned. -/
theorem C6_runner_policy_witness :
    Event.logError ("Could not execute: " ++ "b") ∈ start false dispatchMixed ["a", "b", "c"] ∧
    executedCmds (start false dispatchMixed ["a", "b", "c"]) = ["a"] :=
  (C6_runner_policy false dispatchMixed ["a", "b", "c"]).2 ["a"] "b" ["c"] rfl
    (by decide) (by decide)

end BackupScript
